import Mathlib

/-
  Verification of the LangChain multi-server MCP client
  (src/client/langchain-multiserver-client/langchain-multiserver-client.py).

  The development shallowly embeds the observable behaviour of the script:
  Python values that can appear in an agent response, the custom JSON
  encoder, the config loader, the per-server connection loop, and the
  interactive query loop.  External effects (filesystem reads, subprocess
  connections, the remote model) are abstracted as oracle functions passed
  in as parameters; printed text is collected into lists of strings.
-/

set_option maxHeartbeats 1000000

/-- A Python exception, as far as this program can observe one.  The JSON
encoder raises `TypeError` for unserializable objects; other exception
payloads are kept as plain text. -/
inductive PyExc where
  | typeError (msg : String)
  | other (msg : String)
deriving DecidableEq

/-- A Python value reachable inside an agent response.  The first six
constructors are the JSON-native values (`None`, `bool`, `int`, `str`,
`list`, `dict` with string keys).  `obj` is any other object: it carries its
class name (`o.__class__.__name__`) and, when the object has a `content`
attribute, that attribute's value (`none` models `hasattr(o, "content")`
being false).  Floats are not modelled; no claim involves them. -/
inductive PyVal where
  | none_
  | bool_ (b : Bool)
  | int_ (n : Int)
  | str_ (s : String)
  | list_ (xs : List PyVal)
  | dict_ (fields : List (String × PyVal))
  | obj (className : String) (content : Option PyVal)

/-- A non-JSON-native Python object as the encoder's `default` method sees
it: its class name and its `content` attribute when present. -/
structure PyObject where
  className : String
  content : Option PyVal

/-- Embeds `CustomEncoder.default` (lines 46-49): if the object has a
`content` attribute, return `{"type": o.__class__.__name__, "content":
o.content}`; otherwise defer to `json.JSONEncoder.default`, which raises
`TypeError("Object of type ... is not JSON serializable")`. -/
def CustomEncoder.default (o : PyObject) : Except PyExc PyVal :=
  match o.content with
  | some c => .ok (.dict_ [("type", .str_ o.className), ("content", c)])
  | none =>
      .error (.typeError ("Object of type " ++ o.className ++
        " is not JSON serializable"))

/-- The JSON documents `json.dumps` can actually emit: `PyVal` with the
`obj` constructor eliminated. -/
inductive Json where
  | null
  | bool_ (b : Bool)
  | int_ (n : Int)
  | str_ (s : String)
  | arr (xs : List Json)
  | objM (fields : List (String × Json))

mutual

/-- Embeds the recursive traversal of `json.dumps(..., cls=CustomEncoder)`:
native values pass through; for an `obj` the encoder's `default` hook is
consulted and its result is serialized in turn (the `obj` case here is the
inlined composition of `CustomEncoder.default` with re-encoding of the dict
it returns; lemma `encode_obj` below certifies that reading). -/
def encode : PyVal → Except PyExc Json
  | .none_ => .ok .null
  | .bool_ b => .ok (.bool_ b)
  | .int_ n => .ok (.int_ n)
  | .str_ s => .ok (.str_ s)
  | .list_ xs => do pure (.arr (← encodeList xs))
  | .dict_ fields => do pure (.objM (← encodeFields fields))
  | .obj cn ct =>
      match ct with
      | some c => do pure (.objM [("type", .str_ cn), ("content", ← encode c)])
      | none =>
          .error (.typeError ("Object of type " ++ cn ++
            " is not JSON serializable"))

/-- Encoding of the elements of a Python list, left to right. -/
def encodeList : List PyVal → Except PyExc (List Json)
  | [] => .ok []
  | x :: xs => do pure ((← encode x) :: (← encodeList xs))

/-- Encoding of the entries of a Python dict, in insertion order. -/
def encodeFields : List (String × PyVal) → Except PyExc (List (String × Json))
  | [] => .ok []
  | (k, v) :: rest => do pure ((k, ← encode v) :: (← encodeFields rest))

end

/-- Escape of one character inside a JSON string literal (only the quote and
the backslash matter for the values this client prints). -/
def jsonEscapeChar (c : Char) : String :=
  if c = '"' then "\\\"" else if c = '\\' then "\\\\" else String.singleton c

/-- JSON string literal rendering. -/
def renderString (s : String) : String :=
  "\"" ++ String.join (s.data.map jsonEscapeChar) ++ "\""

mutual

/-- Text rendering of an encoded document.  `json.dumps` is called with
`indent=2`; the indentation is whitespace only, so it is elided here — no
claim depends on the layout of the emitted text. -/
def renderJson : Json → String
  | .null => "null"
  | .bool_ true => "true"
  | .bool_ false => "false"
  | .int_ n => toString n
  | .str_ s => renderString s
  | .arr xs => "[" ++ renderJsonList xs ++ "]"
  | .objM fields => "\x7b" ++ renderJsonFields fields ++ "\x7d"

/-- Comma-separated rendering of array elements. -/
def renderJsonList : List Json → String
  | [] => ""
  | [x] => renderJson x
  | x :: xs => renderJson x ++ ", " ++ renderJsonList xs

/-- Comma-separated rendering of object entries. -/
def renderJsonFields : List (String × Json) → String
  | [] => ""
  | [(k, v)] => renderString k ++ ": " ++ renderJson v
  | (k, v) :: rest =>
      renderString k ++ ": " ++ renderJson v ++ ", " ++ renderJsonFields rest

end

/-- Embeds `json.dumps(response, indent=2, cls=CustomEncoder)`: encode the
value (possibly raising `TypeError`) and render the result as text. -/
def pyDumps (v : PyVal) : Except PyExc String :=
  (encode v).map renderJson

mutual

/-- Embeds Python `str()` on a response value: the default textual
representation.  For a plain object the default `repr` prints class name
and memory address and never recurses into attributes; the address is
elided.  This function is total: the default string form always exists. -/
def pyStr : PyVal → String
  | .none_ => "None"
  | .bool_ true => "True"
  | .bool_ false => "False"
  | .int_ n => toString n
  | .str_ s => "\x27" ++ s ++ "\x27"
  | .list_ xs => "[" ++ pyStrList xs ++ "]"
  | .dict_ fields => "\x7b" ++ pyStrFields fields ++ "\x7d"
  | .obj cn _ => "<" ++ cn ++ " object>"

/-- Rendering of list elements for `str()`. -/
def pyStrList : List PyVal → String
  | [] => ""
  | [x] => pyStr x
  | x :: xs => pyStr x ++ ", " ++ pyStrList xs

/-- Rendering of dict entries for `str()`. -/
def pyStrFields : List (String × PyVal) → String
  | [] => ""
  | [(k, v)] => "\x27" ++ k ++ "\x27: " ++ pyStr v
  | (k, v) :: rest =>
      "\x27" ++ k ++ "\x27: " ++ pyStr v ++ ", " ++ pyStrFields rest

end

/-- A Python `try`/`except Exception` block: run the body; if it raises,
run the handler instead (the handler may itself raise). -/
def tryExcept (body : Except PyExc α) (handler : Except PyExc α) :
    Except PyExc α :=
  match body with
  | .ok a => .ok a
  | .error _ => handler

/-- Embeds the response-printing step (lines 155-160): try to serialize the
response to JSON text and print it; on any exception print `str(response)`
instead.  The result is the list of printed lines, or an uncaught
exception. -/
def printResponseStep (response : PyVal) : Except PyExc (List String) :=
  tryExcept
    (do
      let formatted ← pyDumps response
      pure [formatted])
    (pure [pyStr response])

/-- The whitespace characters removed by Python `str.strip()` on the ASCII
range (space, tab, newline, carriage return, vertical tab, form feed). -/
def isPyWS (c : Char) : Bool :=
  c = ' ' || c = '\t' || c = '\n' || c = '\r' || c = '\x0b' || c = '\x0c'

/-- Python `str.strip()` on a character list: drop whitespace from both
ends. -/
def stripList (l : List Char) : List Char :=
  ((l.dropWhile isPyWS).reverse.dropWhile isPyWS).reverse

/-- Embeds Python `str.strip()` (no argument): remove leading and trailing
whitespace. -/
def pyStrip (s : String) : String :=
  ⟨stripList s.data⟩

/-- Embeds Python `str.lower()`: lowercase every character (ASCII-relevant
here; the only comparison made with it is against `"quit"`). -/
def pyLower (s : String) : String :=
  ⟨s.data.map Char.toLower⟩

/-- How the interactive loop ends: the user typed the quit keyword, the
input stream ran dry (Python `input()` then raises `EOFError`, which this
code does not catch), or an exception escaped the body of an iteration. -/
inductive LoopEnd where
  | quitCommand
  | eofError
  | uncaught (e : PyExc)
deriving DecidableEq

/-- Embeds the interactive loop (lines 145-160) over a finite list of input
lines.  Each line is stripped; if its lowercase form is `"quit"` the loop
breaks; otherwise the stripped text is submitted to the agent (abstracted
as a function from query text to response value) and the response-printing
step runs before the next line is read.  Returns the transcript — one
`(submitted query, printed lines)` pair per iteration, in order — and how
the loop ended. -/
def runLoop (agent : String → PyVal) :
    List String → List (String × List String) × LoopEnd
  | [] => ([], .eofError)
  | line :: rest =>
      let query := pyStrip line
      if pyLower query = "quit" then ([], .quitCommand)
      else
        match printResponseStep (agent query) with
        | .error e => ([], .uncaught e)
        | .ok printed =>
            let (ts, e) := runLoop agent rest
            ((query, printed) :: ts, e)

/-- One configured MCP server: the `command` and `args` fields of an entry
under `"mcpServers"` in the config file. -/
structure ServerInfo where
  command : String
  args : List String
deriving DecidableEq

/-- The parsed configuration: the `"mcpServers"` mapping as an ordered
association list (Python dicts preserve insertion order), as produced by
`config.get("mcpServers", {})` on the parsed JSON document. -/
structure Config where
  mcpServers : List (String × ServerInfo)
deriving DecidableEq

/-- One tool loaded from a server: its `name` (printed as it is loaded) and
an opaque handle standing for its schema and the invocation function bound
to its server's open session.  Two same-named tools from different servers
differ in their handles. -/
structure ToolDescriptor where
  name : String
  handle : Nat
deriving DecidableEq

/-- Result of `read_config_json`: either the parsed configuration (with the
lines it printed), or the `sys.exit` call it made (with its exit code and
the lines it printed). -/
inductive ReadConfigResult where
  | ok (cfg : Config) (printed : List String)
  | exit (code : Nat) (printed : List String)
deriving DecidableEq

/-- Python truthiness of `os.getenv`'s result: falsy when the variable is
unset (`None`) or set to the empty string. -/
def strOptFalsy : Option String → Bool
  | none => true
  | some s => s.isEmpty

/-- The warning printed when the config path falls back to the default. -/
def fallbackWarning (path : String) : String :=
  "⚠️  Config environment variable not set not set. Falling back to: " ++ path

/-- The diagnostic printed when the config file cannot be read or parsed. -/
def configFailureMsg (path : String) (e : String) : String :=
  "❌ Failed to read config file at \x27" ++ path ++ "\x27: " ++ e

/-- The path the loader actually opens: the environment variable's value
when truthy, otherwise `config.json` next to the script
(`os.path.join(script_dir, "config.json")`). -/
def effectiveConfigPath (env : Option String) (scriptDir : String) : String :=
  if strOptFalsy env then scriptDir ++ "/config.json" else env.getD ""

/-- Embeds `read_config_json` (lines 55-80).  `env` is the value of the
`SERVER_CONFIG` environment variable; `scriptDir` is the directory holding
the script (`os.path.dirname(os.path.abspath(__file__))`); `fs` abstracts
`open` followed by `json.load` at a path — either the parsed configuration
or the text of the exception raised.  If `env` is falsy (unset or empty)
the loader warns and falls back to `config.json` next to the script.  On
read or parse failure it prints a diagnostic naming the path and the error
and calls `sys.exit(1)`. -/
def read_config_json (env : Option String) (scriptDir : String)
    (fs : String → Except String Config) : ReadConfigResult :=
  let config_path := effectiveConfigPath env scriptDir
  let printed :=
    if strOptFalsy env then [fallbackWarning config_path] else []
  match fs config_path with
  | .ok cfg => .ok cfg printed
  | .error e => .exit 1 (printed ++ [configFailureMsg config_path e])

/-- The line announcing a connection attempt to one server. -/
def connectingMsg (name : String) : String :=
  "\n🔗 Connecting to MCP Server: " ++ name ++ "..."

/-- The line logged when connecting to a server fails. -/
def connectFailureMsg (name : String) (e : String) : String :=
  "❌ Failed to connect to server " ++ name ++ ": " ++ e

/-- Embeds the per-server connection loop (lines 113-135).  `oracle`
abstracts the body of the `try` block for one server — `stdio_client`,
`ClientSession`, the handshake and `load_mcp_tools` together — returning
either the full list of tools the server exposes or the text of whatever
exception was raised (all of them are caught by the same handler, so no
partial tool list survives a failure).  Returns the aggregated tool list
(each successful server's tools appended in iteration order) and the
printed lines. -/
def connectServers
    (oracle : String → ServerInfo → Except String (List ToolDescriptor)) :
    List (String × ServerInfo) → List ToolDescriptor × List String
  | [] => ([], [])
  | (name, info) :: rest =>
      match oracle name info with
      | .ok serverTools =>
          let toolLines := serverTools.map
            (fun t => "\n🔧 Loaded tool: " ++ t.name)
          let countLine := "\n✅ " ++ toString serverTools.length ++
            " tools loaded from " ++ name ++ "."
          let (ts, out) := connectServers oracle rest
          (serverTools ++ ts,
            connectingMsg name :: (toolLines ++ countLine :: out))
      | .error e =>
          let (ts, out) := connectServers oracle rest
          (ts, connectingMsg name :: connectFailureMsg name e :: out)

/-- How `run_agent` ends: the process terminated via `sys.exit` inside
`read_config_json`; or it returned early because no servers were configured
or no tools were loaded; or the agent was built (with the aggregated tool
list) and the interactive loop ran, producing a transcript. -/
inductive RunResult where
  | configExit (code : Nat)
  | noServers
  | noTools
  | ranLoop (tools : List ToolDescriptor)
      (transcript : List (String × List String)) (ended : LoopEnd)

/-- Everything observable about one run: the printed lines, in order, and
how the run ended. -/
structure RunOutput where
  output : List String
  result : RunResult

/-- The banner printed once the agent is ready. -/
def readyMsg : String :=
  "\n🚀 MCP Client Ready! Type \x27quit\x27 to exit."

/-- The printed lines of a loop transcript (the `"\nResponse:"` header
followed by the serialized or fallback text, per query). -/
def transcriptOutput (ts : List (String × List String)) : List String :=
  ts.flatMap (fun qp => "\nResponse:" :: qp.2)

/-- Embeds `run_agent` (lines 97-160): load the config; return after a
report if the server mapping is empty; attempt every server in order;
return after a report if no tools were loaded; otherwise build the agent
over the full tool list (`create_react_agent(llm, tools)`) and run the
interactive loop.  The remote model is abstracted into `agent`; `inputs`
is the finite sequence of lines available on standard input. -/
def run_agent (env : Option String) (scriptDir : String)
    (fs : String → Except String Config)
    (oracle : String → ServerInfo → Except String (List ToolDescriptor))
    (agent : String → PyVal) (inputs : List String) : RunOutput :=
  match read_config_json env scriptDir fs with
  | .exit code msgs => ⟨msgs, .configExit code⟩
  | .ok config warnMsgs =>
      if config.mcpServers.isEmpty then
        ⟨warnMsgs ++ ["❌ No MCP servers found in the configuration."],
          .noServers⟩
      else
        let (tools, connectOut) := connectServers oracle config.mcpServers
        if tools.isEmpty then
          ⟨warnMsgs ++ connectOut ++
            ["❌ No tools loaded from any server. Exiting."], .noTools⟩
        else
          let (transcript, ended) := runLoop agent inputs
          ⟨warnMsgs ++ connectOut ++ readyMsg :: transcriptOutput transcript,
            .ranLoop tools transcript ended⟩

/-- The inlined `obj` case of `encode` is exactly: consult
`CustomEncoder.default` and serialize whatever it returns, raising what it
raises.  This certifies that `encode` composes the stdlib traversal with
the source's `default` hook. -/
theorem encode_obj (cn : String) (ct : Option PyVal) :
    encode (.obj cn ct) =
      match CustomEncoder.default ⟨cn, ct⟩ with
      | .ok v => encode v
      | .error e => .error e := by
  cases ct with
  | none => simp [encode, CustomEncoder.default]
  | some c =>
      simp only [encode, CustomEncoder.default, encodeFields]
      cases h : encode c <;> simp [h, Except.map, bind, Except.bind, pure,
        Except.pure]

/-- The response-printing step never raises: it prints the serialized text
when serialization succeeds and the default string form otherwise. -/
theorem printResponseStep_eq (r : PyVal) :
    printResponseStep r =
      .ok (match pyDumps r with | .ok s => [s] | .error _ => [pyStr r]) := by
  unfold printResponseStep tryExcept
  cases h : pyDumps r <;> simp [h, bind, Except.bind, pure, Except.pure]

/-- Dropping while a predicate holds is idempotent. -/
theorem dropWhile_dropWhile (p : Char → Bool) (l : List Char) :
    (l.dropWhile p).dropWhile p = l.dropWhile p := by
  induction l with
  | nil => rfl
  | cons x xs ih =>
      by_cases h : p x
      · simpa [List.dropWhile, h] using ih
      · simp [List.dropWhile, h]

/-- The head of `dropWhile p l` does not satisfy `p`. -/
theorem dropWhile_head_not (p : Char → Bool) (l : List Char) (x : Char)
    (h : (l.dropWhile p).head? = some x) : p x = false := by
  induction l with
  | nil => simp [List.dropWhile] at h
  | cons y ys ih =>
      by_cases hy : p y
      · exact ih (by simpa [List.dropWhile, hy] using h)
      · simp [List.dropWhile, hy] at h
        subst h
        simpa using hy

/-- A list whose head does not satisfy `p` is unchanged by `dropWhile p`. -/
theorem dropWhile_of_head_not (p : Char → Bool) (l : List Char)
    (h : ∀ x, l.head? = some x → p x = false) : l.dropWhile p = l := by
  cases l with
  | nil => rfl
  | cons x xs => simp [List.dropWhile, h x rfl]

/-- Both ends of a stripped list are free of whitespace: stripping again
changes nothing. -/
theorem stripList_idem (l : List Char) : stripList (stripList l) = stripList l := by
  unfold stripList
  set a := l.dropWhile isPyWS with ha
  set b := a.reverse.dropWhile isPyWS with hb
  have hfront : b.reverse.dropWhile isPyWS = b.reverse := by
    apply dropWhile_of_head_not
    intro x hx
    -- the head of `b.reverse` is the last element of `b`; `b` is a suffix of
    -- `a.reverse`, so that last element is the head of `a`.
    have hbne : b ≠ [] := by
      intro hnil
      rw [hnil] at hx
      simp at hx
    have hsplit : a.reverse.takeWhile isPyWS ++ b = a.reverse := by
      rw [hb]; exact List.takeWhile_append_dropWhile isPyWS a.reverse
    have hlast : b.reverse.head? = a.reverse.reverse.head? := by
      rw [← hsplit]
      rw [List.reverse_append]
      cases hbr : b.reverse with
      | nil => exact absurd (by simpa using hbr) hbne
      | cons y ys => simp [hbr]
    rw [hlast] at hx
    simp only [List.reverse_reverse] at hx
    exact dropWhile_head_not isPyWS l x (ha ▸ hx)
  rw [hfront, List.reverse_reverse, hb, dropWhile_dropWhile]

/-- Python `strip()` is idempotent: a stripped string has no leading or
trailing whitespace left to remove. -/
theorem pyStrip_idem (s : String) : pyStrip (pyStrip s) = pyStrip s := by
  unfold pyStrip
  exact congrArg String.mk (stripList_idem s.data)

/-- The aggregated tool list is exactly the concatenation, in iteration
order, of the tool lists of the servers whose connection succeeded. -/
theorem connectServers_tools
    (oracle : String → ServerInfo → Except String (List ToolDescriptor))
    (servers : List (String × ServerInfo)) :
    (connectServers oracle servers).1 =
      (servers.filterMap fun p => (oracle p.1 p.2).toOption).flatten := by
  induction servers with
  | nil => rfl
  | cons s rest ih =>
      obtain ⟨name, info⟩ := s
      cases h : oracle name info <;>
        simp [connectServers, h, Except.toOption, ih]

/-- Every failing server gets a log line carrying its name and the error. -/
theorem connectServers_fail_logged
    (oracle : String → ServerInfo → Except String (List ToolDescriptor))
    (servers : List (String × ServerInfo)) (name : String)
    (info : ServerInfo) (e : String)
    (hmem : (name, info) ∈ servers) (hfail : oracle name info = .error e) :
    connectFailureMsg name e ∈ (connectServers oracle servers).2 := by
  induction servers with
  | nil => cases hmem
  | cons s rest ih =>
      obtain ⟨n, i⟩ := s
      rcases List.mem_cons.mp hmem with heq | htail
      · obtain ⟨rfl, rfl⟩ := Prod.mk.injEq .. ▸ heq
        simp only at heq
        cases heq
        simp [connectServers, hfail]
      · cases h : oracle n i <;>
          simp [connectServers, h, ih htail]

/-- Every configured server is attempted: its connection banner is printed
whatever happened to the servers before it. -/
theorem connectServers_attempts
    (oracle : String → ServerInfo → Except String (List ToolDescriptor))
    (servers : List (String × ServerInfo)) (name : String)
    (info : ServerInfo) (hmem : (name, info) ∈ servers) :
    connectingMsg name ∈ (connectServers oracle servers).2 := by
  induction servers with
  | nil => cases hmem
  | cons s rest ih =>
      obtain ⟨n, i⟩ := s
      rcases List.mem_cons.mp hmem with heq | htail
      · cases heq
        cases h : oracle name info <;> simp [connectServers, h]
      · cases h : oracle n i <;>
          simp [connectServers, h, ih htail]

/-- C2: a non-natively-serializable object with a `content` attribute is
encoded by `CustomEncoder.default` as the mapping `{"type": <class name>,
"content": <attribute value>}` — through `json.dumps` it serializes exactly
as that mapping would — while an object without the attribute falls through
to the underlying encoder's `TypeError`. -/
theorem C2_custom_encoder_content (cn : String) (c : PyVal) :
    CustomEncoder.default ⟨cn, some c⟩ =
      .ok (.dict_ [("type", .str_ cn), ("content", c)])
    ∧ CustomEncoder.default ⟨cn, none⟩ =
      .error (.typeError ("Object of type " ++ cn ++
        " is not JSON serializable"))
    ∧ pyDumps (.obj cn (some c)) =
      pyDumps (.dict_ [("type", .str_ cn), ("content", c)])
    ∧ pyDumps (.obj cn none) =
      .error (.typeError ("Object of type " ++ cn ++
        " is not JSON serializable")) := by
  refine ⟨rfl, rfl, ?_, ?_⟩
  · unfold pyDumps
    rw [encode_obj]
    rfl
  · unfold pyDumps
    rw [encode_obj]
    rfl

/-- C3: the response-printing step never lets an exception escape — every
response yields printed output — and whenever JSON serialization raises,
what is printed is the response's default string representation. -/
theorem C3_print_fallback_never_raises (r : PyVal) :
    (∃ out, printResponseStep r = .ok out)
    ∧ ∀ e, pyDumps r = .error e → printResponseStep r = .ok [pyStr r] := by
  constructor
  · exact ⟨_, printResponseStep_eq r⟩
  · intro e he
    rw [printResponseStep_eq, he]

/-- Witness for C3 at a concrete unserializable response: serialization
raises, and the step still returns the default string form. -/
theorem C3_print_fallback_never_raises_witness :
    printResponseStep (.obj "AIMessage" none) = .ok ["<AIMessage object>"] := by
  have hd : pyDumps (PyVal.obj "AIMessage" none) =
      .error (.typeError "Object of type AIMessage is not JSON serializable") := by
    simp [pyDumps, encode, Except.map]
  have h := (C3_print_fallback_never_raises (.obj "AIMessage" none)).2 _ hd
  simpa [pyStr] using h

/-- Counterexample to C4 as stated: the input line " quit " is not a
case-insensitive exact match for the exit keyword, so the claim requires it
to be submitted to the agent; instead the loop strips it first, recognizes
the keyword, and terminates with nothing submitted. -/
theorem C4_counterexample :
    pyLower " quit " ≠ "quit"
    ∧ runLoop (fun _ => PyVal.none_) [" quit "] = ([], .quitCommand) := by
  constructor
  · decide
  · have hq : pyLower (pyStrip " quit ") = "quit" := by decide
    simp [runLoop, hq]

/-- C4 (amended): a line whose whitespace-stripped form matches the exit
keyword case-insensitively terminates the loop without submitting a query;
every other line is submitted — in its stripped form — as a single message,
and its response is printed before the next line is read. -/
theorem C4_quit_terminates_amended (agent : String → PyVal) (line : String)
    (rest : List String) :
    runLoop agent (line :: rest) =
      if pyLower (pyStrip line) = "quit" then ([], .quitCommand)
      else
        ((pyStrip line,
            match pyDumps (agent (pyStrip line)) with
            | .ok s => [s]
            | .error _ => [pyStr (agent (pyStrip line))]) ::
            (runLoop agent rest).1,
          (runLoop agent rest).2) := by
  by_cases h : pyLower (pyStrip line) = "quit"
  · simp [runLoop, h]
  · cases hr : runLoop agent rest with
    | mk ts e =>
        simp [runLoop, h, printResponseStep_eq, hr]

/-- C10: lines are stripped before the exit check and before submission: a
line whose stripped form matches the exit keyword case-insensitively ends
the loop without a query; every query ever submitted carries no leading or
trailing whitespace (stripping it again changes nothing); and a line that
strips to nothing is still submitted, as the empty string. -/
theorem C10_lines_stripped (agent : String → PyVal) (inputs : List String) :
    (∀ line rest, pyLower (pyStrip line) = "quit" →
        runLoop agent (line :: rest) = ([], .quitCommand))
    ∧ (∀ q ∈ (runLoop agent inputs).1.map Prod.fst, pyStrip q = q)
    ∧ (∀ ws rest, pyStrip ws = "" →
        ∃ printed ts e,
          runLoop agent (ws :: rest) = (("", printed) :: ts, e)) := by
  refine ⟨?_, ?_, ?_⟩
  · intro line rest h
    simp [runLoop, h]
  · induction inputs with
    | nil => simp [runLoop]
    | cons line rest ih =>
        by_cases h : pyLower (pyStrip line) = "quit"
        · simp [runLoop, h]
        · cases hr : runLoop agent rest with
          | mk ts e =>
              simp only [runLoop, h, if_false, printResponseStep_eq, hr]
              intro q hq
              rcases List.mem_map.mp hq with ⟨p, hp, rfl⟩
              rcases List.mem_cons.mp hp with rfl | hp
              · exact pyStrip_idem line
              · exact ih _ (by rw [hr]; exact List.mem_map.mpr ⟨p, hp, rfl⟩)
  · intro ws rest h
    have hq : ¬ pyLower (pyStrip ws) = "quit" := by
      rw [h]; decide
    cases hr : runLoop agent rest with
    | mk ts e =>
        refine ⟨(match pyDumps (agent "") with
          | .ok s => [s]
          | .error _ => [pyStr (agent "")]), ts, e, ?_⟩
        simp [runLoop, hq, printResponseStep_eq, hr, h]
        decide

/-- Witness for C10: a padded "QUIT" ends the loop, and an all-blank line is
submitted as the empty string. -/
theorem C10_lines_stripped_witness :
    runLoop (fun _ => PyVal.none_) ["  QUIT  "] = ([], .quitCommand)
    ∧ ∃ printed ts e,
        runLoop (fun _ => PyVal.none_) ["   "] = (("", printed) :: ts, e) :=
  ⟨(C10_lines_stripped (fun _ => PyVal.none_) []).1 "  QUIT  " [] (by decide),
   (C10_lines_stripped (fun _ => PyVal.none_) []).2.2 "   " [] (by decide)⟩

/-- C5: when reading or JSON-parsing the config file at the effective path
fails, the loader prints a diagnostic naming that path and the underlying
error and terminates the process with exit code 1; and there is no retry —
the loader consults the filesystem at that one path only, so any
filesystem agreeing there produces the identical outcome. -/
theorem C5_config_failure_exits_1 (env : Option String) (scriptDir : String)
    (fs : String → Except String Config) (e : String)
    (hfail : fs (effectiveConfigPath env scriptDir) = .error e) :
    (∃ printed, read_config_json env scriptDir fs = .exit 1 printed
      ∧ configFailureMsg (effectiveConfigPath env scriptDir) e ∈ printed)
    ∧ ∀ fs' : String → Except String Config,
        fs' (effectiveConfigPath env scriptDir) =
          fs (effectiveConfigPath env scriptDir) →
        read_config_json env scriptDir fs' =
          read_config_json env scriptDir fs := by
  constructor
  · refine ⟨(if strOptFalsy env then
        [fallbackWarning (effectiveConfigPath env scriptDir)] else []) ++
        [configFailureMsg (effectiveConfigPath env scriptDir) e], ?_, ?_⟩
    · simp only [read_config_json, hfail]
    · simp
  · intro fs' hagree
    simp only [read_config_json, hagree]

/-- Witness for C5: a missing file at a path set through the environment
variable is diagnosed and the process exits with code 1. -/
theorem C5_config_failure_exits_1_witness :
    ∃ printed, read_config_json (some "/etc/mcp.json") "/app"
        (fun _ => .error "No such file or directory") = .exit 1 printed
      ∧ configFailureMsg "/etc/mcp.json" "No such file or directory" ∈ printed := by
  have hpath : effectiveConfigPath (some "/etc/mcp.json") "/app" =
      "/etc/mcp.json" := rfl
  have h := (C5_config_failure_exits_1 (some "/etc/mcp.json") "/app"
      (fun _ => .error "No such file or directory")
      "No such file or directory" rfl).1
  simpa only [hpath] using h

/-- Counterexample to C8 as stated: `SERVER_CONFIG` set to the empty string
is a set variable, yet the loader (which tests Python truthiness, not
presence) prints the fallback warning and reads the default path instead of
using the set value. -/
theorem C8_counterexample :
    (some "" : Option String) ≠ none
    ∧ read_config_json (some "") "/app" (fun _ => .ok ⟨[]⟩) =
        .ok ⟨[]⟩ [fallbackWarning "/app/config.json"] := by
  constructor
  · simp
  · rfl

/-- C8 (amended): when the config-path variable is unset **or set to the
empty string** the loader uses `config.json` in the script's directory and
prints a warning naming that fallback path; when it is set to any non-empty
value, that value is the config path and no warning is printed. -/
theorem C8_env_fallback_amended (env : Option String) (scriptDir : String)
    (fs : String → Except String Config) :
    (strOptFalsy env = true →
      effectiveConfigPath env scriptDir = scriptDir ++ "/config.json"
      ∧ read_config_json env scriptDir fs =
          (match fs (scriptDir ++ "/config.json") with
           | .ok cfg =>
               .ok cfg [fallbackWarning (scriptDir ++ "/config.json")]
           | .error e =>
               .exit 1 [fallbackWarning (scriptDir ++ "/config.json"),
                 configFailureMsg (scriptDir ++ "/config.json") e]))
    ∧ ∀ p, env = some p → p ≠ "" →
        effectiveConfigPath env scriptDir = p
        ∧ read_config_json env scriptDir fs =
            (match fs p with
             | .ok cfg => .ok cfg []
             | .error e => .exit 1 [configFailureMsg p e]) := by
  constructor
  · intro h
    have hpath : effectiveConfigPath env scriptDir =
        scriptDir ++ "/config.json" := by
      simp [effectiveConfigPath, h]
    refine ⟨hpath, ?_⟩
    simp only [read_config_json, hpath, h, if_true]
    cases fs (scriptDir ++ "/config.json") <;> simp
  · intro p hp hne
    subst hp
    have hfalsy : strOptFalsy (some p) = false := by
      simp only [strOptFalsy]
      exact Bool.eq_false_iff.mpr (fun hc => hne ((String.isEmpty_iff p).mp hc))
    have hpath : effectiveConfigPath (some p) scriptDir = p := by
      simp [effectiveConfigPath, hfalsy]
    refine ⟨hpath, ?_⟩
    simp only [read_config_json, hpath, hfalsy]
    cases fs p <;> simp

/-- Witness for C8 (amended) at a non-empty set value: the set path is
used and nothing is printed. -/
theorem C8_env_fallback_amended_witness :
    effectiveConfigPath (some "/cfg/servers.json") "/app" = "/cfg/servers.json"
    ∧ read_config_json (some "/cfg/servers.json") "/app"
        (fun p => if p = "/cfg/servers.json" then .ok ⟨[]⟩
                  else .error "unexpected path") = .ok ⟨[]⟩ [] := by
  have h := (C8_env_fallback_amended (some "/cfg/servers.json") "/app"
      (fun p => if p = "/cfg/servers.json" then .ok ⟨[]⟩
                else .error "unexpected path")).2
      "/cfg/servers.json" rfl (by simp)
  simpa using h

/-- Unfolding of `run_agent` once the config has loaded: the three
remaining outcomes depend only on the server list, the connection results
and the loop. -/
theorem run_agent_eq (env : Option String) (scriptDir : String)
    (fs : String → Except String Config)
    (oracle : String → ServerInfo → Except String (List ToolDescriptor))
    (agent : String → PyVal) (inputs : List String)
    (cfg : Config) (w : List String)
    (hcfg : read_config_json env scriptDir fs = .ok cfg w) :
    run_agent env scriptDir fs oracle agent inputs =
      if cfg.mcpServers.isEmpty then
        ⟨w ++ ["❌ No MCP servers found in the configuration."], .noServers⟩
      else if (connectServers oracle cfg.mcpServers).1.isEmpty then
        ⟨w ++ (connectServers oracle cfg.mcpServers).2 ++
          ["❌ No tools loaded from any server. Exiting."], .noTools⟩
      else
        ⟨w ++ (connectServers oracle cfg.mcpServers).2 ++
          readyMsg :: transcriptOutput (runLoop agent inputs).1,
          .ranLoop (connectServers oracle cfg.mcpServers).1
            (runLoop agent inputs).1 (runLoop agent inputs).2⟩ := by
  unfold run_agent
  rw [hcfg]

/-- C7: a parsed configuration with no server entries makes `run_agent`
report the absence and return gracefully — a plain return to the caller,
not the loader's `sys.exit` path — and the outcome is identical whatever
the connection oracle, agent or input would have done: no connection is
ever attempted. -/
theorem C7_no_servers_graceful (env : Option String) (scriptDir : String)
    (fs : String → Except String Config) (cfg : Config) (w : List String)
    (hcfg : read_config_json env scriptDir fs = .ok cfg w)
    (hempty : cfg.mcpServers = []) :
    ∀ oracle agent inputs,
      run_agent env scriptDir fs oracle agent inputs =
        ⟨w ++ ["❌ No MCP servers found in the configuration."], .noServers⟩
      ∧ ∀ oracle' agent' inputs',
          run_agent env scriptDir fs oracle agent inputs =
            run_agent env scriptDir fs oracle' agent' inputs' := by
  intro oracle agent inputs
  constructor
  · rw [run_agent_eq env scriptDir fs oracle agent inputs cfg w hcfg]
    simp [hempty]
  · intro oracle' agent' inputs'
    rw [run_agent_eq env scriptDir fs oracle agent inputs cfg w hcfg,
      run_agent_eq env scriptDir fs oracle' agent' inputs' cfg w hcfg]
    simp [hempty]

/-- Witness for C7 at a concrete empty configuration. -/
theorem C7_no_servers_graceful_witness :
    run_agent (some "/c.json") "/app" (fun _ => .ok ⟨[]⟩)
        (fun _ _ => .error "never reached") (fun _ => PyVal.none_) [] =
      ⟨["❌ No MCP servers found in the configuration."], .noServers⟩ :=
  (C7_no_servers_graceful (some "/c.json") "/app" (fun _ => .ok ⟨[]⟩)
    ⟨[]⟩ [] rfl rfl (fun _ _ => .error "never reached")
    (fun _ => PyVal.none_) []).1

/-- C6: when every connection attempt has been made and the aggregated tool
collection is still empty, `run_agent` reports it and returns without
building the agent or entering the interactive loop: the outcome never
depends on the agent or on standard input. -/
theorem C6_no_tools_early_return (env : Option String) (scriptDir : String)
    (fs : String → Except String Config)
    (oracle : String → ServerInfo → Except String (List ToolDescriptor))
    (cfg : Config) (w : List String)
    (hcfg : read_config_json env scriptDir fs = .ok cfg w)
    (hne : cfg.mcpServers ≠ [])
    (hempty : (connectServers oracle cfg.mcpServers).1 = []) :
    ∀ agent inputs,
      run_agent env scriptDir fs oracle agent inputs =
        ⟨w ++ (connectServers oracle cfg.mcpServers).2 ++
          ["❌ No tools loaded from any server. Exiting."], .noTools⟩ := by
  intro agent inputs
  rw [run_agent_eq env scriptDir fs oracle agent inputs cfg w hcfg]
  simp [hempty, List.isEmpty_iff, hne]

/-- Witness for C6: one server that fails to spawn leaves zero tools, and
the run ends in the no-tools report without consulting agent or input. -/
theorem C6_no_tools_early_return_witness :
    run_agent (some "/c.json") "/app"
        (fun _ => .ok ⟨[("srv", ⟨"nonexistent-command", []⟩)]⟩)
        (fun _ _ => .error "spawn failed") (fun _ => PyVal.none_) ["hello"] =
      ⟨[connectingMsg "srv", connectFailureMsg "srv" "spawn failed",
        "❌ No tools loaded from any server. Exiting."], .noTools⟩ := by
  have h := C6_no_tools_early_return (some "/c.json") "/app"
      (fun _ => .ok ⟨[("srv", ⟨"nonexistent-command", []⟩)]⟩)
      (fun _ _ => .error "spawn failed")
      ⟨[("srv", ⟨"nonexistent-command", []⟩)]⟩ [] rfl (by simp) rfl
      (fun _ => PyVal.none_) ["hello"]
  simpa [connectServers] using h

/-- C1: connection attempts are isolated.  Every failing server is caught
and logged with its name and its error; every configured server is still
attempted (its connection banner is printed) whatever happened before it;
the aggregated collection holds exactly the tools of the servers that
succeeded, in order; and when that collection is non-empty the run goes on
to build the agent over it. -/
theorem C1_failures_isolated
    (oracle : String → ServerInfo → Except String (List ToolDescriptor))
    (servers : List (String × ServerInfo)) :
    ((connectServers oracle servers).1 =
      (servers.filterMap fun p => (oracle p.1 p.2).toOption).flatten)
    ∧ (∀ name info e, (name, info) ∈ servers → oracle name info = .error e →
        connectFailureMsg name e ∈ (connectServers oracle servers).2)
    ∧ (∀ name info, (name, info) ∈ servers →
        connectingMsg name ∈ (connectServers oracle servers).2)
    ∧ (∀ env scriptDir fs cfg w agent inputs,
        read_config_json env scriptDir fs = .ok cfg w →
        cfg.mcpServers = servers →
        (connectServers oracle servers).1 ≠ [] →
        ∃ transcript ended,
          (run_agent env scriptDir fs oracle agent inputs).result =
            .ranLoop (connectServers oracle servers).1 transcript ended) := by
  refine ⟨connectServers_tools oracle servers,
    fun name info e hmem hfail =>
      connectServers_fail_logged oracle servers name info e hmem hfail,
    fun name info hmem => connectServers_attempts oracle servers name info hmem,
    ?_⟩
  intro env scriptDir fs cfg w agent inputs hcfg hsrv htools
  subst hsrv
  have hne : ¬ cfg.mcpServers.isEmpty := by
    intro hc
    rw [List.isEmpty_iff.mp hc] at htools
    exact htools rfl
  have hte : ¬ (connectServers oracle cfg.mcpServers).1.isEmpty := by
    intro hc
    exact htools (List.isEmpty_iff.mp hc)
  rw [run_agent_eq env scriptDir fs oracle agent inputs cfg w hcfg]
  simp only [hne, hte, if_false, Bool.false_eq_true]
  exact ⟨_, _, rfl⟩

/-- Witness for C1: of two configured servers the first fails to spawn and
the second contributes one tool; the failure is logged, both are attempted,
the collection holds exactly the surviving tool, and the agent is built. -/
theorem C1_failures_isolated_witness :
    ((connectServers
        (fun name _ => if name = "bad" then .error "spawn failed"
                       else .ok [⟨"add", 0⟩])
        [("bad", ⟨"missing-cmd", []⟩), ("good", ⟨"ok-cmd", ["-v"]⟩)]).1 =
      [⟨"add", 0⟩])
    ∧ connectFailureMsg "bad" "spawn failed" ∈
        (connectServers
          (fun name _ => if name = "bad" then .error "spawn failed"
                         else .ok [⟨"add", 0⟩])
          [("bad", ⟨"missing-cmd", []⟩), ("good", ⟨"ok-cmd", ["-v"]⟩)]).2
    ∧ connectingMsg "good" ∈
        (connectServers
          (fun name _ => if name = "bad" then .error "spawn failed"
                         else .ok [⟨"add", 0⟩])
          [("bad", ⟨"missing-cmd", []⟩), ("good", ⟨"ok-cmd", ["-v"]⟩)]).2
    ∧ ∃ transcript ended,
        (run_agent (some "/c.json") "/app"
          (fun _ => .ok ⟨[("bad", ⟨"missing-cmd", []⟩),
            ("good", ⟨"ok-cmd", ["-v"]⟩)]⟩)
          (fun name _ => if name = "bad" then .error "spawn failed"
                         else .ok [⟨"add", 0⟩])
          (fun _ => PyVal.none_) []).result =
          .ranLoop [⟨"add", 0⟩] transcript ended := by
  have h := C1_failures_isolated
      (fun name _ => if name = "bad" then .error "spawn failed"
                     else .ok [⟨"add", 0⟩])
      [("bad", ⟨"missing-cmd", []⟩), ("good", ⟨"ok-cmd", ["-v"]⟩)]
  have htools : (connectServers
      (fun name _ => if name = "bad" then .error "spawn failed"
                     else .ok [⟨"add", 0⟩])
      [("bad", ⟨"missing-cmd", []⟩), ("good", ⟨"ok-cmd", ["-v"]⟩)]).1 =
      [⟨"add", 0⟩] := by
    rw [h.1]
    simp [Except.toOption]
  refine ⟨htools, ?_, ?_, ?_⟩
  · exact h.2.1 "bad" ⟨"missing-cmd", []⟩ "spawn failed" (by simp) (by simp)
  · exact h.2.2.1 "good" ⟨"ok-cmd", ["-v"]⟩ (by simp)
  · have := h.2.2.2 (some "/c.json") "/app"
        (fun _ => .ok ⟨[("bad", ⟨"missing-cmd", []⟩),
          ("good", ⟨"ok-cmd", ["-v"]⟩)]⟩)
        ⟨[("bad", ⟨"missing-cmd", []⟩), ("good", ⟨"ok-cmd", ["-v"]⟩)]⟩ []
        (fun _ => PyVal.none_) [] rfl rfl (by rw [htools]; simp)
    rwa [htools] at this

/-- C9: tool names are never deduplicated across servers.  When two
configured servers connect successfully and each exposes a tool with the
same name, the aggregated collection is the plain concatenation of their
tool lists — both descriptors are present, in insertion order — and the
agent is built over that full collection. -/
theorem C9_no_name_dedup
    (oracle : String → ServerInfo → Except String (List ToolDescriptor))
    (n1 n2 : String) (i1 i2 : ServerInfo)
    (ts1 ts2 : List ToolDescriptor) (t1 t2 : ToolDescriptor)
    (h1 : oracle n1 i1 = .ok ts1) (h2 : oracle n2 i2 = .ok ts2)
    (hm1 : t1 ∈ ts1) (hm2 : t2 ∈ ts2) (_hname : t1.name = t2.name) :
    (connectServers oracle [(n1, i1), (n2, i2)]).1 = ts1 ++ ts2
    ∧ t1 ∈ (connectServers oracle [(n1, i1), (n2, i2)]).1
    ∧ t2 ∈ (connectServers oracle [(n1, i1), (n2, i2)]).1
    ∧ ∀ env scriptDir fs cfg w agent inputs,
        read_config_json env scriptDir fs = .ok cfg w →
        cfg.mcpServers = [(n1, i1), (n2, i2)] →
        ∃ transcript ended,
          (run_agent env scriptDir fs oracle agent inputs).result =
            .ranLoop (ts1 ++ ts2) transcript ended := by
  have htools : (connectServers oracle [(n1, i1), (n2, i2)]).1 = ts1 ++ ts2 := by
    simp [connectServers, h1, h2]
  refine ⟨htools, ?_, ?_, ?_⟩
  · rw [htools]
    exact List.mem_append_left ts2 hm1
  · rw [htools]
    exact List.mem_append_right ts1 hm2
  · intro env scriptDir fs cfg w agent inputs hcfg hsrv
    have hne : (ts1 ++ ts2).isEmpty = false := by
      apply Bool.eq_false_iff.mpr
      intro hc
      rcases List.append_eq_nil.mp (List.isEmpty_iff.mp hc) with ⟨h1nil, -⟩
      rw [h1nil] at hm1
      cases hm1
    rw [run_agent_eq env scriptDir fs oracle agent inputs cfg w hcfg]
    simp only [hsrv, htools, List.isEmpty_cons, hne, Bool.false_eq_true,
      if_false]
    exact ⟨_, _, rfl⟩

/-- Witness for C9: two servers each exposing a tool named "add" (bound to
different sessions); both descriptors survive aggregation in order and the
agent is built over both. -/
theorem C9_no_name_dedup_witness :
    (connectServers
        (fun name _ => if name = "s1" then .ok [⟨"add", 1⟩]
                       else .ok [⟨"add", 2⟩])
        [("s1", ⟨"cmd1", []⟩), ("s2", ⟨"cmd2", []⟩)]).1 =
      [⟨"add", 1⟩, ⟨"add", 2⟩]
    ∧ ∃ transcript ended,
        (run_agent (some "/c.json") "/app"
          (fun _ => .ok ⟨[("s1", ⟨"cmd1", []⟩), ("s2", ⟨"cmd2", []⟩)]⟩)
          (fun name _ => if name = "s1" then .ok [⟨"add", 1⟩]
                         else .ok [⟨"add", 2⟩])
          (fun _ => PyVal.none_) []).result =
          .ranLoop [⟨"add", 1⟩, ⟨"add", 2⟩] transcript ended := by
  have h := C9_no_name_dedup
      (fun name _ => if name = "s1" then .ok [⟨"add", 1⟩]
                     else .ok [⟨"add", 2⟩])
      "s1" "s2" ⟨"cmd1", []⟩ ⟨"cmd2", []⟩ [⟨"add", 1⟩] [⟨"add", 2⟩]
      ⟨"add", 1⟩ ⟨"add", 2⟩ (by simp) (by simp) (by simp) (by simp) rfl
  exact ⟨h.1, h.2.2.2 (some "/c.json") "/app"
    (fun _ => .ok ⟨[("s1", ⟨"cmd1", []⟩), ("s2", ⟨"cmd2", []⟩)]⟩)
    ⟨[("s1", ⟨"cmd1", []⟩), ("s2", ⟨"cmd2", []⟩)]⟩ []
    (fun _ => PyVal.none_) [] rfl rfl⟩
